import Mathlib

/-!
Shallow embedding of the fb-library Python package (x0pherl/fb-library) in
Lean 4, together with theorems settling the frozen claims about it.

Numeric conventions: Python floats are modelled as real numbers (`ℝ`);
`math.atan2` is modelled through `Complex.arg`, whose range `(-π, π]` and
value `0` at the origin match CPython's `atan2`; Python's float `%` with a
positive divisor is modelled by `fmod` below; `x ** 0.5` on a nonnegative
float is modelled by `Real.sqrt`.  Python exceptions are modelled with
`Except`: a function that can raise returns `Except E α`.  The build123d
CAD kernel is not re-implemented: geometry that the library merely hands to
the kernel is recorded symbolically as data (inductive "part" values whose
fields are exactly the arguments the Python code computes and passes),
while every computation and control-flow decision the library itself makes
is translated literally.
-/

namespace FbLibrary

/-- Python `ValueError` carrying its message. -/
structure ValueError where
  msg : String
deriving DecidableEq, Repr

/-- Python `ZeroDivisionError` carrying its message. -/
structure ZeroDivisionError where
  msg : String
deriving DecidableEq, Repr

/-- `math.radians`: degrees to radians. -/
noncomputable def radians (d : ℝ) : ℝ := d * Real.pi / 180

/-- `math.degrees`: radians to degrees. -/
noncomputable def degrees (r : ℝ) : ℝ := r * 180 / Real.pi

/-- `math.atan2 y x`, modelled as the argument of the complex number
`x + y i`; both have range `(-π, π]` and send the origin to `0`. -/
noncomputable def atan2 (y x : ℝ) : ℝ := Complex.arg (x + y * Complex.I)

/-- Python's float modulo `x % y` (for finite operands): the representative
of `x` in `[0, y)` when `y > 0`. -/
noncomputable def fmod (x y : ℝ) : ℝ := x - y * ⌊x / y⌋

/-- `build123d.Axis`, restricted to the coordinate axes used by the
library (`Axis.X`, `Axis.Y`, and `Axis.Z` for the rejected "other" case). -/
inductive Axis where
  | X
  | Y
  | Z
deriving DecidableEq, Repr

/-- `fb_library.point.Point`: a 2D point with x and y coordinates
(dataclass fields `x` and `y`). -/
structure Point where
  x : ℝ
  y : ℝ

noncomputable instance : DecidableEq Point :=
  fun _ _ => Classical.propDecidable _

namespace Point

/-- `Point.angle_to`: `degrees(atan2(point.y - self.y, point.x - self.x)) % 360`. -/
noncomputable def angle_to (self point : Point) : ℝ :=
  fmod (degrees (atan2 (point.y - self.y) (point.x - self.x))) 360

/-- `Point.distance_to`: `((self.x - point.x) ** 2 + (self.y - point.y) ** 2) ** 0.5`. -/
noncomputable def distance_to (self point : Point) : ℝ :=
  Real.sqrt ((self.x - point.x) ^ 2 + (self.y - point.y) ^ 2)

/-- `Point.related_point`: the point at the given angle (degrees) and
distance from `self`. -/
noncomputable def related_point (self : Point) (angle distance : ℝ) : Point :=
  let angle_rad := radians angle
  ⟨self.x + distance * Real.cos angle_rad,
   self.y + distance * Real.sin angle_rad⟩

/-- `Point.related_point_by_axis`: the point at the given angle whose travel
along the chosen axis is `axis_distance`; raises `ValueError` when the
direction is (numerically) perpendicular to that axis, or when the axis is
neither `Axis.X` nor `Axis.Y`. -/
noncomputable def related_point_by_axis (self : Point) (angle axis_distance : ℝ)
    (axis : Axis) : Except ValueError Point :=
  let angle_rad := radians angle
  match axis with
  | Axis.X =>
    if |Real.cos angle_rad| < 1e-10 then
      Except.error ⟨"Cannot move along x-axis at this angle (cos = 0)"⟩
    else
      let hypotenuse := |axis_distance / Real.cos angle_rad|
      Except.ok
        ⟨self.x + axis_distance,
         self.y + hypotenuse * Real.sin angle_rad *
            (if Real.cos angle_rad > 0 then 1 else -1)⟩
  | Axis.Y =>
    if |Real.sin angle_rad| < 1e-10 then
      Except.error ⟨"Cannot move along y-axis at this angle (sin = 0)"⟩
    else
      let hypotenuse := |axis_distance / Real.sin angle_rad|
      Except.ok
        ⟨self.x + hypotenuse * Real.cos angle_rad *
            (if Real.sin angle_rad > 0 then 1 else -1),
         self.y + axis_distance⟩
  | Axis.Z => Except.error ⟨"axis must be Axis.X or Axis.Y"⟩

end Point

/-- `fb_library.point.midpoint`: the midpoint of two points. -/
noncomputable def midpoint (point1 point2 : Point) : Point :=
  ⟨(point1.x + point2.x) / 2, (point1.y + point2.y) / 2⟩

/-- `fb_library.point.shifted_midpoint`: the midpoint shifted towards
`point2` by `shift` along the normalized direction vector.  Python raises
`ZeroDivisionError` at `direction_x /= length` when the direction vector
has length zero. -/
noncomputable def shifted_midpoint (point1 point2 : Point) (shift : ℝ) :
    Except ZeroDivisionError Point :=
  let mid_x := (point1.x + point2.x) / 2
  let mid_y := (point1.y + point2.y) / 2
  let direction_x := point2.x - point1.x
  let direction_y := point2.y - point1.y
  let length := Real.sqrt (direction_x ^ 2 + direction_y ^ 2)
  if length = 0 then Except.error ⟨"float division by zero"⟩
  else
    Except.ok
      ⟨mid_x + direction_x / length * shift,
       mid_y + direction_y / length * shift⟩

/-!
Object-level model of Python's reference semantics for `Point`, used to
state the frame/immutability claim: a heap is a list of allocated `Point`
objects, a reference is an index into it.  Each method is re-read off the
Python source: its body contains no assignment to a field of an existing
object, so its heap action is at most the allocation (append) of the one
freshly constructed `Point` it returns.
-/

/-- A heap of allocated `Point` objects; references are list indices. -/
abbrev Heap := List Point

/-- The placeholder value an out-of-range reference reads as; only in-range
references are ever claimed about. -/
def defaultPoint : Point := ⟨0, 0⟩

/-- Heap-level `Point.angle_to`: reads the two objects, writes nothing,
allocates nothing. -/
noncomputable def angle_to_heap (h : Heap) (i j : ℕ) : Heap × ℝ :=
  (h, (h.getD i defaultPoint).angle_to (h.getD j defaultPoint))

/-- Heap-level `Point.distance_to`: reads the two objects, writes nothing,
allocates nothing. -/
noncomputable def distance_to_heap (h : Heap) (i j : ℕ) : Heap × ℝ :=
  (h, (h.getD i defaultPoint).distance_to (h.getD j defaultPoint))

/-- Heap-level `Point.related_point`: reads `self`, allocates the one new
`Point` returned by `Point(...)` in the source, and returns its reference. -/
noncomputable def related_point_heap (h : Heap) (i : ℕ) (angle distance : ℝ) :
    Heap × ℕ :=
  (h ++ [(h.getD i defaultPoint).related_point angle distance], h.length)

/-- Heap-level `Point.related_point_by_axis`: on success allocates the one
new `Point`; when the source raises `ValueError` the heap is untouched. -/
noncomputable def related_point_by_axis_heap (h : Heap) (i : ℕ)
    (angle axis_distance : ℝ) (axis : Axis) : Heap × Except ValueError ℕ :=
  match (h.getD i defaultPoint).related_point_by_axis angle axis_distance axis with
  | Except.error e => (h, Except.error e)
  | Except.ok p => (h ++ [p], Except.ok h.length)

/-- Heap-level `midpoint`: reads the two objects and allocates the one new
`Point` constructed. -/
noncomputable def midpoint_heap (h : Heap) (i j : ℕ) : Heap × ℕ :=
  (h ++ [midpoint (h.getD i defaultPoint) (h.getD j defaultPoint)], h.length)

/-- Heap-level `shifted_midpoint`: on success allocates the one new `Point`;
when the source raises `ZeroDivisionError` the heap is untouched. -/
noncomputable def shifted_midpoint_heap (h : Heap) (i j : ℕ) (shift : ℝ) :
    Heap × Except ZeroDivisionError ℕ :=
  match shifted_midpoint (h.getD i defaultPoint) (h.getD j defaultPoint) shift with
  | Except.error e => (h, Except.error e)
  | Except.ok p => (h ++ [p], Except.ok h.length)

namespace BasicShapes

/-- `fb_library.basic_shapes.circular_intersection`, translated literally:
the guard is Python's chained comparison `0 > coordinate > radius`, i.e.
`0 > coordinate and coordinate > radius`; when the guard does not fire,
`math.sqrt(radius**2 - coordinate**2)` itself raises
`ValueError: math domain error` on a negative argument, and otherwise
returns the square root. -/
noncomputable def circular_intersection (radius coordinate : ℝ) :
    Except ValueError ℝ :=
  if 0 > coordinate ∧ coordinate > radius then
    Except.error ⟨"The x-coordinate cannot be greater than the radius."⟩
  else if radius ^ 2 - coordinate ^ 2 < 0 then
    Except.error ⟨"math domain error"⟩
  else
    Except.ok (Real.sqrt (radius ^ 2 - coordinate ^ 2))

/-- Geometry handed to the build123d kernel by `screw_cut`: a ruled loft
through circles, each recorded as (plane Z offset, circle radius) in the
order the sketches are created. -/
inductive Part where
  | loft (sections : List (ℝ × ℝ)) (ruled : Bool)

/-- `fb_library.basic_shapes.screw_cut`: validates the radii, then lofts
circle sketches at the planes the source constructs. -/
noncomputable def screw_cut (head_radius head_sink shaft_radius shaft_length
    bottom_clearance : ℝ) : Except ValueError Part :=
  if head_radius ≤ shaft_radius then
    Except.error ⟨"head_radius must be larger than shaft_radius"⟩
  else
    Except.ok (Part.loft
      [(-bottom_clearance, head_radius),
       (0, head_radius),
       (head_sink, head_radius),
       (head_sink + head_radius - shaft_radius, shaft_radius),
       (shaft_length, shaft_radius)] true)

end BasicShapes

namespace Antichamfer

/-- An abstract build123d `Face`. -/
structure Face where
  id : ℕ
deriving DecidableEq, Repr

/-- A part, for the antichamfer module: either a pre-existing part or the
result of the `BuildPart` block in `anti_chamfer`, which re-adds the part
and extrudes each face (offset inward by `length`) by `length` with taper
`-degrees(atan(length2 / length))`. -/
inductive Part where
  | base (id : ℕ)
  | antichamfered (p : Part) (faces : List Face) (length : ℝ) (taper : ℝ)

/-- `fb_library.antichamfer.anti_chamfer`, translated literally: `length2`
defaults to `length`; a zero `length` or `length2` returns the part
unchanged; a lone `Face` is wrapped into a list; otherwise the extrusions
are performed. -/
noncomputable def anti_chamfer (part : Part) (faces : Face ⊕ List Face)
    (length : ℝ) (length2? : Option ℝ) : Part :=
  let length2 := length2?.getD length
  if length = 0 ∨ length2 = 0 then part
  else
    let faceList := match faces with
      | Sum.inl f => [f]
      | Sum.inr fs => fs
    Part.antichamfered part faceList length
      (-degrees (Real.arctan (length2 / length)))

end Antichamfer

namespace BoltFittings

/-- build123d alignment along one axis. -/
inductive Align where
  | MIN
  | CENTER
  | MAX
deriving DecidableEq, Repr

/-- The arguments of one `teardrop_cylinder` call. -/
structure TeardropCylinderSpec where
  radius : ℝ
  peak_distance : ℝ
  height : ℝ
  align : Align × Align × Align

/-- Geometry handed to the build123d kernel by the sinkhole builders: the
`BuildPart` block at `Location((0, 0, z))` holding the shaft and head
teardrop cylinders plus the optional top-face extrusion, and the final
`anti_chamfer` wrapper. -/
inductive Part where
  | sinkholeBody (location_z : ℝ) (shaft head : TeardropCylinderSpec)
      (extension : Option ℝ)
  | antiChamfered (p : Part) (chamfer_radius : ℝ)

/-- `fb_library.bolt_fittings.teardrop_bolt_cut_sinkhole`: a teardrop bolt
hole with countersink; each teardrop cylinder gets
`peak_distance = radius * teardrop_ratio`, the top face is extruded by
`extension_distance` when positive, and the result is anti-chamfered by
`chamfer_radius`. -/
noncomputable def teardrop_bolt_cut_sinkhole (shaft_radius shaft_depth
    head_radius head_depth chamfer_radius extension_distance
    teardrop_ratio : ℝ) : Part :=
  let sinkhole : Part := Part.sinkholeBody shaft_depth
    ⟨shaft_radius, shaft_radius * teardrop_ratio, shaft_depth,
      (Align.CENTER, Align.CENTER, Align.MAX)⟩
    ⟨head_radius, head_radius * teardrop_ratio, head_depth,
      (Align.CENTER, Align.CENTER, Align.MIN)⟩
    (if extension_distance > 0 then some extension_distance else none)
  Part.antiChamfered sinkhole chamfer_radius

/-- `fb_library.bolt_fittings.bolt_cut_sinkhole`: the dedicated circular
bolt hole, defined in the source by delegation with `teardrop_ratio=1.0`. -/
noncomputable def bolt_cut_sinkhole (shaft_radius shaft_depth head_radius
    head_depth chamfer_radius extension_distance : ℝ) : Part :=
  teardrop_bolt_cut_sinkhole shaft_radius shaft_depth head_radius head_depth
    chamfer_radius extension_distance 1.0

end BoltFittings

namespace Dovetail

/-- `fb_library.dovetail.DovetailPart`. -/
inductive DovetailPart where
  | TAIL
  | SOCKET
deriving DecidableEq, Repr

/-- `fb_library.dovetail.DovetailStyle`. -/
inductive DovetailStyle where
  | TRADITIONAL
  | SNUGTAIL
  | T_SLOT
deriving DecidableEq, Repr

/-- What `dovetail_subpart` observes of its input part: its bounding box
(`part.bounding_box().size` and `.min.Z`). -/
structure Part where
  size_x : ℝ
  size_y : ℝ
  size_z : ℝ
  min_z : ℝ

/-- The geometry `dovetail_subpart` goes on to construct once all four
validation checks pass; its fields record the arguments the construction
depends on. -/
structure SubpartGeometry where
  part : Part
  start : Point
  stop : Point
  dsection : DovetailPart
  style : DovetailStyle
  linear_offset : ℝ
  tolerance : ℝ
  vertical_tolerance : ℝ
  slot_count : ℕ
  depth : ℝ
  tail_angle_offset : ℝ
  taper_angle : ℝ
  length_ratio : ℝ
  depth_ratio : ℝ
  scarf_angle : ℝ
  vertical_offset : ℝ
  click_fit_radius : ℝ

/-- `fb_library.dovetail.dovetail_subpart`: the four validation checks, in
source order, then the geometry construction (recorded symbolically). -/
noncomputable def dovetail_subpart (part : Part) (start stop : Point)
    (dsection : DovetailPart) (style : DovetailStyle)
    (linear_offset tolerance vertical_tolerance : ℝ) (slot_count : ℕ)
    (depth tail_angle_offset taper_angle length_ratio depth_ratio
      scarf_angle vertical_offset click_fit_radius : ℝ) :
    Except ValueError SubpartGeometry :=
  if start = stop then
    Except.error ⟨"start and end points cannot be the same"⟩
  else if |vertical_offset| > part.size_z then
    Except.error ⟨"Vertical offset cannot be greater than the part's height"⟩
  else if vertical_offset < 0 ∧ taper_angle < 0 then
    Except.error ⟨"a negative taper_angle and a positive vertical_offset will result in an invalid dovetail"⟩
  else if vertical_offset > 0 ∧ taper_angle > 0 then
    Except.error ⟨"a positive taper_angle and a positive vertical_offset will result in an invalid dovetail"⟩
  else
    Except.ok ⟨part, start, stop, dsection, style, linear_offset, tolerance,
      vertical_tolerance, slot_count, depth, tail_angle_offset, taper_angle,
      length_ratio, depth_ratio, scarf_angle, vertical_offset,
      click_fit_radius⟩

end Dovetail

/-! ### Helper lemmas -/

theorem fmod_eq_mul_fract (x y : ℝ) (hy : y ≠ 0) :
    fmod x y = y * Int.fract (x / y) := by
  unfold fmod Int.fract
  field_simp

theorem fmod_nonneg_lt (x y : ℝ) (hy : 0 < y) :
    0 ≤ fmod x y ∧ fmod x y < y := by
  rw [fmod_eq_mul_fract x y hy.ne']
  constructor
  · exact mul_nonneg hy.le (Int.fract_nonneg _)
  · calc y * Int.fract (x / y) < y * 1 :=
        mul_lt_mul_of_pos_left (Int.fract_lt_one _) hy
    _ = y := mul_one y

theorem fmod_sub_int_mul (x : ℝ) (k : ℤ) :
    fmod (x - k * 360) 360 = fmod x 360 := by
  unfold fmod
  have h : (x - k * 360) / 360 = x / 360 - k := by ring
  rw [h, Int.floor_sub_int]
  push_cast
  ring

theorem arg_cos_sin_eq (θ : ℝ) :
    ∃ k : ℤ, Complex.arg (↑(Real.cos θ) + ↑(Real.sin θ) * Complex.I)
      = θ - k * (2 * Real.pi) := by
  refine ⟨toIocDiv (mul_pos two_pos Real.pi_pos) (-Real.pi) θ, ?_⟩
  rw [Complex.ofReal_cos, Complex.ofReal_sin, ← Complex.exp_mul_I,
    Complex.arg_exp_mul_I]
  rw [← self_sub_toIocDiv_zsmul (mul_pos two_pos Real.pi_pos) (-Real.pi) θ]
  rw [zsmul_eq_mul]

/-! ### Claim theorems -/

/-- Claim C1: the dedicated circular-profile bolt hole equals the circular
special case of the parametrized teardrop bolt hole: for every choice of
the six shared arguments, `bolt_cut_sinkhole` returns the same part as
`teardrop_bolt_cut_sinkhole` with `teardrop_ratio = 1.0`. -/
theorem bolt_cut_sinkhole_eq_teardrop_ratio_one (shaft_radius shaft_depth
    head_radius head_depth chamfer_radius extension_distance : ℝ) :
    BoltFittings.bolt_cut_sinkhole shaft_radius shaft_depth head_radius
        head_depth chamfer_radius extension_distance
      = BoltFittings.teardrop_bolt_cut_sinkhole shaft_radius shaft_depth
          head_radius head_depth chamfer_radius extension_distance 1.0 := rfl

/-- Claim C3: `dovetail_subpart` rejects coincident endpoints: whatever the
other parameters, if the start point equals the end point it raises a
`ValueError`. -/
theorem dovetail_subpart_coincident_raises (part : Dovetail.Part)
    (start stop : Point) (dsection : Dovetail.DovetailPart)
    (style : Dovetail.DovetailStyle)
    (linear_offset tolerance vertical_tolerance : ℝ) (slot_count : ℕ)
    (depth tail_angle_offset taper_angle length_ratio depth_ratio scarf_angle
      vertical_offset click_fit_radius : ℝ)
    (hse : start = stop) :
    Dovetail.dovetail_subpart part start stop dsection style linear_offset
        tolerance vertical_tolerance slot_count depth tail_angle_offset
        taper_angle length_ratio depth_ratio scarf_angle vertical_offset
        click_fit_radius
      = Except.error ⟨"start and end points cannot be the same"⟩ := by
  unfold Dovetail.dovetail_subpart
  rw [if_pos hse]

/-- Witness for claim C3 at concrete inputs. -/
theorem dovetail_subpart_coincident_raises_witness :
    Dovetail.dovetail_subpart ⟨10, 10, 10, 0⟩ ⟨1, 2⟩ ⟨1, 2⟩
        Dovetail.DovetailPart.TAIL Dovetail.DovetailStyle.SNUGTAIL
        0 0.025 0.2 1 2 15 0 (1 / 3) (1 / 6) 0 0 0
      = Except.error ⟨"start and end points cannot be the same"⟩ :=
  dovetail_subpart_coincident_raises ⟨10, 10, 10, 0⟩ ⟨1, 2⟩ ⟨1, 2⟩
    Dovetail.DovetailPart.TAIL Dovetail.DovetailStyle.SNUGTAIL
    0 0.025 0.2 1 2 15 0 (1 / 3) (1 / 6) 0 0 0 rfl

/-- Claim C2: `dovetail_subpart` rejects an out-of-range vertical offset:
whenever the absolute value of `vertical_offset` exceeds the part's
bounding-box Z size it raises a `ValueError` before constructing any
geometry, and a vertical offset within the part's height passes this
check (the vertical-offset error is not raised). -/
theorem dovetail_subpart_vertical_offset_check (part : Dovetail.Part)
    (start stop : Point) (dsection : Dovetail.DovetailPart)
    (style : Dovetail.DovetailStyle)
    (linear_offset tolerance vertical_tolerance : ℝ) (slot_count : ℕ)
    (depth tail_angle_offset taper_angle length_ratio depth_ratio scarf_angle
      vertical_offset click_fit_radius : ℝ) :
    (|vertical_offset| > part.size_z →
      ∃ e, Dovetail.dovetail_subpart part start stop dsection style
          linear_offset tolerance vertical_tolerance slot_count depth
          tail_angle_offset taper_angle length_ratio depth_ratio scarf_angle
          vertical_offset click_fit_radius = Except.error e) ∧
    (|vertical_offset| ≤ part.size_z →
      Dovetail.dovetail_subpart part start stop dsection style linear_offset
          tolerance vertical_tolerance slot_count depth tail_angle_offset
          taper_angle length_ratio depth_ratio scarf_angle vertical_offset
          click_fit_radius
        ≠ Except.error
            ⟨"Vertical offset cannot be greater than the part's height"⟩) := by
  unfold Dovetail.dovetail_subpart
  constructor
  · intro hgt
    by_cases hse : start = stop
    · rw [if_pos hse]
      exact ⟨_, rfl⟩
    · rw [if_neg hse, if_pos hgt]
      exact ⟨_, rfl⟩
  · intro hle
    by_cases hse : start = stop
    · rw [if_pos hse]
      simp only [ne_eq, Except.error.injEq, ValueError.mk.injEq]
      decide
    · rw [if_neg hse, if_neg (not_lt.mpr hle)]
      by_cases h3 : vertical_offset < 0 ∧ taper_angle < 0
      · rw [if_pos h3]
        simp only [ne_eq, Except.error.injEq, ValueError.mk.injEq]
        decide
      · rw [if_neg h3]
        by_cases h4 : vertical_offset > 0 ∧ taper_angle > 0
        · rw [if_pos h4]
          simp only [ne_eq, Except.error.injEq, ValueError.mk.injEq]
          decide
        · rw [if_neg h4]
          simp

/-- Witness for claim C2 at concrete inputs: an offset of 5 on a part of
height 1 trips the check; an offset of 1 on the same part passes it. -/
theorem dovetail_subpart_vertical_offset_check_witness :
    (∃ e, Dovetail.dovetail_subpart ⟨10, 10, 1, 0⟩ ⟨0, 0⟩ ⟨1, 2⟩
        Dovetail.DovetailPart.TAIL Dovetail.DovetailStyle.SNUGTAIL
        0 0.025 0.2 1 2 15 0 (1 / 3) (1 / 6) 0 5 0 = Except.error e) ∧
    Dovetail.dovetail_subpart ⟨10, 10, 1, 0⟩ ⟨0, 0⟩ ⟨1, 2⟩
        Dovetail.DovetailPart.TAIL Dovetail.DovetailStyle.SNUGTAIL
        0 0.025 0.2 1 2 15 0 (1 / 3) (1 / 6) 0 1 0
      ≠ Except.error
          ⟨"Vertical offset cannot be greater than the part's height"⟩ :=
  ⟨(dovetail_subpart_vertical_offset_check ⟨10, 10, 1, 0⟩ ⟨0, 0⟩ ⟨1, 2⟩
      Dovetail.DovetailPart.TAIL Dovetail.DovetailStyle.SNUGTAIL
      0 0.025 0.2 1 2 15 0 (1 / 3) (1 / 6) 0 5 0).1 (by norm_num),
   (dovetail_subpart_vertical_offset_check ⟨10, 10, 1, 0⟩ ⟨0, 0⟩ ⟨1, 2⟩
      Dovetail.DovetailPart.TAIL Dovetail.DovetailStyle.SNUGTAIL
      0 0.025 0.2 1 2 15 0 (1 / 3) (1 / 6) 0 1 0).2 (by norm_num)⟩

/-- Claim C4: `screw_cut` requires the head radius to exceed the shaft
radius: when `head_radius ≤ shaft_radius` it raises a `ValueError`, and
when `head_radius > shaft_radius` the check passes and a part is built. -/
theorem screw_cut_radius_check (head_radius head_sink shaft_radius
    shaft_length bottom_clearance : ℝ) :
    (head_radius ≤ shaft_radius →
      BasicShapes.screw_cut head_radius head_sink shaft_radius shaft_length
          bottom_clearance
        = Except.error ⟨"head_radius must be larger than shaft_radius"⟩) ∧
    (head_radius > shaft_radius →
      ∃ p, BasicShapes.screw_cut head_radius head_sink shaft_radius
          shaft_length bottom_clearance = Except.ok p) := by
  unfold BasicShapes.screw_cut
  constructor
  · intro hle
    rw [if_pos hle]
  · intro hgt
    rw [if_neg (not_le.mpr hgt)]
    exact ⟨_, rfl⟩

/-- Witness for claim C4 at concrete inputs: radii (1, 2) raise, radii
(3, 2) pass. -/
theorem screw_cut_radius_check_witness :
    BasicShapes.screw_cut 1 1.4 2 20 20
        = Except.error ⟨"head_radius must be larger than shaft_radius"⟩ ∧
    ∃ p, BasicShapes.screw_cut 3 1.4 2 20 20 = Except.ok p :=
  ⟨(screw_cut_radius_check 1 1.4 2 20 20).1 (by norm_num),
   (screw_cut_radius_check 3 1.4 2 20 20).2 (by norm_num)⟩

/-- Claim C5: `anti_chamfer` is a no-op on zero-length parameters: for
every part and faces, if `length = 0` or the effective `length2` (which
defaults to `length`) is `0`, the input part is returned unchanged. -/
theorem anti_chamfer_zero_noop (part : Antichamfer.Part)
    (faces : Antichamfer.Face ⊕ List Antichamfer.Face) (length : ℝ)
    (length2? : Option ℝ) (hz : length = 0 ∨ length2?.getD length = 0) :
    Antichamfer.anti_chamfer part faces length length2? = part := by
  unfold Antichamfer.anti_chamfer
  rw [if_pos hz]

/-- Witness for claim C5 at concrete inputs: `length = 0` with defaulted
`length2`. -/
theorem anti_chamfer_zero_noop_witness :
    Antichamfer.anti_chamfer (Antichamfer.Part.base 7)
        (Sum.inr [⟨0⟩, ⟨1⟩]) 0 none
      = Antichamfer.Part.base 7 :=
  anti_chamfer_zero_noop (Antichamfer.Part.base 7) (Sum.inr [⟨0⟩, ⟨1⟩]) 0 none
    (Or.inl rfl)

/-- Claim C6 (refuted, code bug): the guard in `circular_intersection` is
Python's chained comparison `0 > coordinate > radius`
(`coordinate < 0 and coordinate > radius`), which is unsatisfiable for any
positive radius, so the documented range check never fires.  At the failing
input `radius = 5`, `coordinate = -1` — a coordinate that is not a positive
value strictly less than the radius, where the claim, the function's own
docstring and its error message all say a `ValueError` is raised — the
function instead returns `sqrt(5² - (-1)²) = sqrt 24`. -/
theorem circular_intersection_failing_input :
    BasicShapes.circular_intersection 5 (-1)
      = Except.ok (Real.sqrt (5 ^ 2 - (-1) ^ 2)) := by
  unfold BasicShapes.circular_intersection
  rw [if_neg (by norm_num), if_neg (by norm_num)]

/-- Claim C7: `Point` is an immutable value type: none of the operations
`angle_to`, `distance_to`, `related_point`, `related_point_by_axis`,
`midpoint`, `shifted_midpoint` modifies any existing `Point` on the heap
(every previously allocated reference still reads the same object), and
each projection or midpoint operation returns a freshly allocated `Point`
(its reference differs from every pre-existing one). -/
theorem point_ops_frame (h : Heap) (i j k : ℕ) (a d shift : ℝ) (axis : Axis)
    (hk : k < h.length) :
    (angle_to_heap h i j).1 = h ∧
    (distance_to_heap h i j).1 = h ∧
    ((related_point_heap h i a d).1[k]? = h[k]? ∧
      (related_point_heap h i a d).2 ≠ k) ∧
    ((related_point_by_axis_heap h i a d axis).1[k]? = h[k]? ∧
      ∀ r, (related_point_by_axis_heap h i a d axis).2 = Except.ok r →
        r ≠ k) ∧
    ((midpoint_heap h i j).1[k]? = h[k]? ∧ (midpoint_heap h i j).2 ≠ k) ∧
    ((shifted_midpoint_heap h i j shift).1[k]? = h[k]? ∧
      ∀ r, (shifted_midpoint_heap h i j shift).2 = Except.ok r → r ≠ k) := by
  refine ⟨rfl, rfl, ⟨?_, ?_⟩, ⟨?_, ?_⟩, ⟨?_, ?_⟩, ⟨?_, ?_⟩⟩
  · exact List.getElem?_append_left hk
  · unfold related_point_heap
    omega
  · unfold related_point_by_axis_heap
    cases hm : (h.getD i defaultPoint).related_point_by_axis a d axis with
    | error e => rfl
    | ok p => exact List.getElem?_append_left hk
  · unfold related_point_by_axis_heap
    cases hm : (h.getD i defaultPoint).related_point_by_axis a d axis with
    | error e => intro r hr; cases hr
    | ok p =>
        intro r hr
        simp only [Except.ok.injEq] at hr
        omega
  · exact List.getElem?_append_left hk
  · unfold midpoint_heap
    omega
  · unfold shifted_midpoint_heap
    cases hm : shifted_midpoint (h.getD i defaultPoint)
        (h.getD j defaultPoint) shift with
    | error e => rfl
    | ok p => exact List.getElem?_append_left hk
  · unfold shifted_midpoint_heap
    cases hm : shifted_midpoint (h.getD i defaultPoint)
        (h.getD j defaultPoint) shift with
    | error e => intro r hr; cases hr
    | ok p =>
        intro r hr
        simp only [Except.ok.injEq] at hr
        omega

/-- Witness for claim C7 on a concrete two-point heap. -/
theorem point_ops_frame_witness :
    (angle_to_heap [⟨0, 0⟩, ⟨3, 4⟩] 0 1).1 = [⟨0, 0⟩, ⟨3, 4⟩] ∧
    (distance_to_heap [⟨0, 0⟩, ⟨3, 4⟩] 0 1).1 = [⟨0, 0⟩, ⟨3, 4⟩] ∧
    ((related_point_heap [⟨0, 0⟩, ⟨3, 4⟩] 0 45 2).1[0]?
        = [(⟨0, 0⟩ : Point), ⟨3, 4⟩][0]? ∧
      (related_point_heap [⟨0, 0⟩, ⟨3, 4⟩] 0 45 2).2 ≠ 0) ∧
    ((related_point_by_axis_heap [⟨0, 0⟩, ⟨3, 4⟩] 0 45 2 Axis.X).1[0]?
        = [(⟨0, 0⟩ : Point), ⟨3, 4⟩][0]? ∧
      ∀ r, (related_point_by_axis_heap [⟨0, 0⟩, ⟨3, 4⟩] 0 45 2 Axis.X).2
          = Except.ok r → r ≠ 0) ∧
    ((midpoint_heap [⟨0, 0⟩, ⟨3, 4⟩] 0 1).1[0]?
        = [(⟨0, 0⟩ : Point), ⟨3, 4⟩][0]? ∧
      (midpoint_heap [⟨0, 0⟩, ⟨3, 4⟩] 0 1).2 ≠ 0) ∧
    ((shifted_midpoint_heap [⟨0, 0⟩, ⟨3, 4⟩] 0 1 1).1[0]?
        = [(⟨0, 0⟩ : Point), ⟨3, 4⟩][0]? ∧
      ∀ r, (shifted_midpoint_heap [⟨0, 0⟩, ⟨3, 4⟩] 0 1 1).2
          = Except.ok r → r ≠ 0) :=
  point_ops_frame [⟨0, 0⟩, ⟨3, 4⟩] 0 1 0 45 2 1 Axis.X (by norm_num)

/-- Claim C8: projecting a point and then measuring back is the identity on
distance and angle: for every point `p`, angle `a`, and distance `d > 0`,
the point `q = p.related_point a d` satisfies `p.distance_to q = d` and
`p.angle_to q = a` modulo 360 (i.e. equals `fmod a 360`). -/
theorem related_point_round_trip (p : Point) (a d : ℝ) (hd : 0 < d) :
    p.distance_to (p.related_point a d) = d ∧
    p.angle_to (p.related_point a d) = fmod a 360 := by
  constructor
  · unfold Point.distance_to Point.related_point
    simp only
    have h1 : (p.x - (p.x + d * Real.cos (radians a))) ^ 2
        + (p.y - (p.y + d * Real.sin (radians a))) ^ 2 = d ^ 2 := by
      have h2 := Real.sin_sq_add_cos_sq (radians a)
      nlinarith [h2]
    rw [h1, Real.sqrt_sq hd.le]
  · unfold Point.angle_to Point.related_point atan2
    simp only
    have hx : p.x + d * Real.cos (radians a) - p.x
        = d * Real.cos (radians a) := by ring
    have hy : p.y + d * Real.sin (radians a) - p.y
        = d * Real.sin (radians a) := by ring
    rw [hx, hy]
    have hz : ((d * Real.cos (radians a) : ℝ) : ℂ)
        + ((d * Real.sin (radians a) : ℝ) : ℂ) * Complex.I
        = (d : ℂ) * (((Real.cos (radians a) : ℝ) : ℂ)
            + ((Real.sin (radians a) : ℝ) : ℂ) * Complex.I) := by
      push_cast
      ring
    rw [hz, Complex.arg_real_mul _ hd]
    obtain ⟨k, hk⟩ := arg_cos_sin_eq (radians a)
    rw [hk]
    have hdeg : degrees (radians a - k * (2 * Real.pi)) = a - k * 360 := by
      unfold degrees radians
      field_simp
      ring
    rw [hdeg, fmod_sub_int_mul]

/-- Witness for claim C8 at a concrete point, angle and distance. -/
theorem related_point_round_trip_witness :
    (Point.mk 0 0).distance_to ((Point.mk 0 0).related_point 30 2) = 2 ∧
    (Point.mk 0 0).angle_to ((Point.mk 0 0).related_point 30 2)
      = fmod 30 360 :=
  related_point_round_trip ⟨0, 0⟩ 30 2 (by norm_num)

/-- Claim C9: `angle_to` returns a normalized degree value: for every pair
of points, the result lies in `[0, 360)`. -/
theorem angle_to_normalized (p q : Point) :
    0 ≤ p.angle_to q ∧ p.angle_to q < 360 := by
  unfold Point.angle_to
  exact fmod_nonneg_lt _ 360 (by norm_num)

/-- Claim C10: `shifted_midpoint` is only defined for distinct points: for
every shift, identical input points raise `ZeroDivisionError` (the
zero-length direction vector cannot be normalized), and distinct points
always return a point. -/
theorem shifted_midpoint_distinct_points (p q : Point) (shift : ℝ) :
    (p = q → shifted_midpoint p q shift
        = Except.error ⟨"float division by zero"⟩) ∧
    (p ≠ q → ∃ r, shifted_midpoint p q shift = Except.ok r) := by
  constructor
  · intro hpq
    subst hpq
    unfold shifted_midpoint
    simp
  · intro hpq
    unfold shifted_midpoint
    have hne : q.x - p.x ≠ 0 ∨ q.y - p.y ≠ 0 := by
      by_contra hcon
      push_neg at hcon
      obtain ⟨h1, h2⟩ := hcon
      apply hpq
      cases p with
      | mk px py =>
        cases q with
        | mk qx qy =>
          simp only [Point.mk.injEq]
          simp only at h1 h2
          constructor <;> linarith
    have hpos : 0 < (q.x - p.x) ^ 2 + (q.y - p.y) ^ 2 := by
      rcases hne with hc | hc
      · have habs := abs_pos.mpr hc
        nlinarith [sq_abs (q.x - p.x), sq_nonneg (q.y - p.y),
          mul_pos habs habs]
      · have habs := abs_pos.mpr hc
        nlinarith [sq_abs (q.y - p.y), sq_nonneg (q.x - p.x),
          mul_pos habs habs]
    have hlen : Real.sqrt ((q.x - p.x) ^ 2 + (q.y - p.y) ^ 2) ≠ 0 :=
      Real.sqrt_ne_zero'.mpr hpos
    rw [if_neg hlen]
    exact ⟨_, rfl⟩

/-- Witness for claim C10: identical points raise, distinct points
succeed. -/
theorem shifted_midpoint_distinct_points_witness :
    shifted_midpoint ⟨1, 2⟩ ⟨1, 2⟩ 3
        = Except.error ⟨"float division by zero"⟩ ∧
    ∃ r, shifted_midpoint ⟨0, 0⟩ ⟨1, 0⟩ 3 = Except.ok r :=
  ⟨(shifted_midpoint_distinct_points ⟨1, 2⟩ ⟨1, 2⟩ 3).1 rfl,
   (shifted_midpoint_distinct_points ⟨0, 0⟩ ⟨1, 0⟩ 3).2
     (by norm_num [Point.mk.injEq])⟩

end FbLibrary
